import Mathlib

/-!
Verification of the speed-rs HTTP server engine (src/lib.rs and src/utils.rs).

The embedding below translates the request/response data model, the wire
codec (decode of headlines / Content-Length / body, encode of the response),
the handler chain with its error handler, the router and the static-file
handler into Lean.  Rust `HashMap<String, String>` headers are modelled as
association lists whose `insertH` replaces the value of an existing key
(last-write-wins, as `HashMap::insert` does); `Vec<u8>` bodies are `List Nat`
byte sequences; a Rust panic inside a constructor that returns `Self`
(an out-of-bounds index or `remove(0)` on an empty vector) is modelled by
an `Option` result being `none`.

String primitives (`split`, `splitn`, `trim`, `to_lowercase`, `parse::<usize>`,
`str::find`) are re-implemented on character lists so that every definition
evaluates inside the kernel.  `to_lowercase` and `trim` are modelled on the
ASCII range, which is the range the server's protocol strings live in; the
prefix arithmetic of the static-file handler works on characters where Rust
slices bytes, which agree on ASCII paths.
-/

namespace SpeedRs

/-! ### String primitives -/

/-- ASCII lowercase of one character, modelling `char::to_lowercase` on the
ASCII range (header names compared by the codec are ASCII). -/
def lowerChar (c : Char) : Char :=
  if 65 ≤ c.toNat ∧ c.toNat ≤ 90 then Char.ofNat (c.toNat + 32) else c

/-- Lowercasing of a string, modelling `str::to_lowercase` on ASCII input. -/
def lowerStr (s : String) : String :=
  ⟨s.data.map lowerChar⟩

/-- ASCII whitespace test, modelling `char::is_whitespace` on the ASCII range. -/
def isWspace (c : Char) : Bool :=
  c == ' ' || c == '\t' || c == '\n' || c == '\r' || c.toNat == 11 || c.toNat == 12

/-- `str::trim`: drop whitespace from both ends. -/
def trimStr (s : String) : String :=
  ⟨((s.data.dropWhile isWspace).reverse.dropWhile isWspace).reverse⟩

/-- `pat` is a prefix of `l` (character-list version of `str::starts_with`). -/
def isPrefixL : List Char → List Char → Bool
  | [], _ => true
  | _ :: _, [] => false
  | a :: as, b :: bs => a == b && isPrefixL as bs

/-- If `pat` is a prefix of `l`, return the remainder of `l` after it. -/
def dropPrefixL : List Char → List Char → Option (List Char)
  | [], l => some l
  | _ :: _, [] => none
  | a :: as, b :: bs => if a == b then dropPrefixL as bs else none

/-- Worker for `splitOnL`: fuelled scan splitting on every non-overlapping
occurrence of `sep` (Rust `str::split` with a non-empty pattern). -/
def splitGo (sep : List Char) : Nat → List Char → List Char → List (List Char)
  | 0, acc, rest => [acc.reverse ++ rest]
  | _ + 1, acc, [] => [acc.reverse]
  | fuel + 1, acc, c :: rest =>
    match dropPrefixL sep (c :: rest) with
    | some rem => acc.reverse :: splitGo sep fuel [] rem
    | none => splitGo sep fuel (c :: acc) rest

/-- `str::split(sep)` for a non-empty separator, on strings. -/
def splitOnS (sep s : String) : List String :=
  (splitGo sep.data s.data.length [] s.data).map (fun l => ⟨l⟩)

/-- Index of the first occurrence of `pat` in `l` (Rust `str::find` with a
string pattern; byte indices and character indices agree on ASCII). -/
def findSub (pat : List Char) : List Char → Option Nat
  | [] => if isPrefixL pat [] then some 0 else none
  | c :: rest =>
    if isPrefixL pat (c :: rest) then some 0
    else (findSub pat rest).map (· + 1)

/-- Join a list of strings with a separator (used to reassemble the tail of
`splitn(2, ':')`). -/
def joinWith (sep : String) : List String → String
  | [] => ""
  | [x] => x
  | x :: xs => x ++ sep ++ joinWith sep xs

/-- Rust `line.splitn(2, ':')`: at most two pieces, the second piece keeps
any further colons. -/
def splitnTwoColon (s : String) : List String :=
  match splitOnS ":" s with
  | [] => [s]
  | [x] => [x]
  | x :: restParts => [x, joinWith ":" restParts]

def isDigitC (c : Char) : Bool :=
  48 ≤ c.toNat && c.toNat ≤ 57

def digitsVal (l : List Char) : Nat :=
  l.foldl (fun a c => a * 10 + (c.toNat - 48)) 0

/-- `usize::MAX` on the 64-bit targets the server is built for. -/
def usizeMax : Nat := 2 ^ 64 - 1

def parseUsizeDigits (l : List Char) : Option Nat :=
  if l ≠ [] ∧ l.all isDigitC = true ∧ digitsVal l ≤ usizeMax then
    some (digitsVal l)
  else none

/-- Rust `str::parse::<usize>()`: an optional leading `+`, then one or more
decimal digits, rejecting overflow past `usize::MAX`. -/
def parseUsize (s : String) : Option Nat :=
  match s.data with
  | '+' :: rest => parseUsizeDigits rest
  | l => parseUsizeDigits l

/-! ### Bytes -/

/-- UTF-8 encoding of one character (Rust `str::as_bytes` views strings as
their UTF-8 byte sequence). -/
def charBytes (c : Char) : List Nat :=
  let n := c.toNat
  if n < 128 then [n]
  else if n < 2048 then [192 + n / 64, 128 + n % 64]
  else if n < 65536 then [224 + n / 4096, 128 + (n / 64) % 64, 128 + n % 64]
  else [240 + n / 262144, 128 + (n / 4096) % 64, 128 + (n / 64) % 64, 128 + n % 64]

/-- The UTF-8 bytes of a string (`String::as_bytes` / `Vec::from(s.as_bytes())`). -/
def strBytes (s : String) : List Nat :=
  s.data.flatMap charBytes

/-! ### Header maps -/

/-- `HashMap::insert`: replace the value of an existing key, otherwise add the
pair.  The association-list position is irrelevant to every claim (the map's
iteration order is unspecified in the source as well). -/
def insertH (k v : String) : List (String × String) → List (String × String)
  | [] => [(k, v)]
  | (a, b) :: rest => if a = k then (k, v) :: rest else (a, b) :: insertH k v rest

/-- `HashMap::get` on the header map. -/
def getH (k : String) (hs : List (String × String)) : Option String :=
  (hs.find? (fun p => p.1 == k)).map (fun p => p.2)

/-! ### Data model (src/lib.rs declarations) -/

structure HttpStatusStruct where
  code : Int
  reason : String
deriving DecidableEq, Repr

structure HttpRequest where
  headers : List (String × String)
  body : List Nat
  method : String
  uri : String
  version : String
deriving DecidableEq, Repr

structure HttpResponse where
  headers : List (String × String)
  body : List Nat
  status : HttpStatusStruct
deriving DecidableEq, Repr

/-! ### Request decoding (HttpRequest::new and the headline scan of
handle_tcp_stream in src/lib.rs) -/

/-- One iteration of the header loop of `HttpRequest::new`: the line is split
on every `": "` occurrence and, when at least two pieces exist, the pair
`(elements[0], elements[1])` is inserted — note that `elements[1]` is only the
second piece, not the whole remainder of the line. -/
def headerStep (acc : List (String × String)) (line : String) : List (String × String) :=
  match splitOnS ": " line with
  | a :: b :: _ => insertH a b acc
  | _ => acc

def parseHeaders (lines : List String) : List (String × String) :=
  lines.foldl headerStep []

/-- `HttpRequest::new`.  The Rust function returns `Self` and panics when
`request_headlines` is empty (`remove(0)`) or when the request line has fewer
than three space-separated tokens (`metadata[2]`); both panics are modelled by
`none`. -/
def HttpRequest.new (headlines : List String) (body : List Nat) : Option HttpRequest :=
  match headlines with
  | [] => none
  | firstLine :: rest =>
    match splitOnS " " firstLine with
    | m :: u :: v :: _ =>
      some { headers := parseHeaders rest, body := body, method := m, uri := u, version := v }
    | _ => none

/-- The closure of the `find_map` in `handle_tcp_stream` that scans one
headline for a usable Content-Length: `splitn(2, ':')`, case-insensitive
comparison of the part before the colon, then `trim` and `parse::<usize>` of
the part after it.  `none` makes `find_map` keep scanning. -/
def lineContentLength (line : String) : Option Nat :=
  match splitnTwoColon line with
  | [] => none
  | name :: rest =>
    if lowerStr name = "content-length" then
      match rest with
      | [] => none
      | v :: _ => parseUsize (trimStr v)
    else none

/-- The `content_length` computed by `handle_tcp_stream`:
`find_map(..).unwrap_or(0)` over all headlines. -/
def contentLength (headlines : List String) : Nat :=
  (headlines.findSome? lineContentLength).getD 0

/-- Modelled from the claim's words, for comparison with `contentLength`
(which is the source translation): locate the first headline whose header name
matches Content-Length case-insensitively, parse its value, and default to 0
when the header is absent or its value does not parse. -/
def contentLengthClaimed (headlines : List String) : Nat :=
  match headlines.find? (fun line =>
      lowerStr ((splitnTwoColon line).headD "") == "content-length") with
  | none => 0
  | some line =>
    match splitnTwoColon line with
    | _ :: v :: _ => (parseUsize (trimStr v)).getD 0
    | _ => 0

/-- The body read of `handle_tcp_stream`: `read_exact` into a buffer of
`n` zeroes.  The result pairs the body with the unread remainder of the
stream; `none` models the `unwrap` panic when fewer than `n` bytes are
available (an I/O failure, not a truncated body). -/
def readBody (n : Nat) (stream : List Nat) : Option (List Nat × List Nat) :=
  if n ≤ stream.length then some (stream.take n, stream.drop n) else none

/-! ### Response construction (HttpResponse methods in src/lib.rs) -/

/-- `HttpResponse::new`: the default response handed to the first handler. -/
def HttpResponse.new : HttpResponse :=
  { headers := [],
    body := [],
    status := { code := 404, reason := "Not Found" } }

def HttpResponse.insertHeader (res : HttpResponse) (k v : String) : HttpResponse :=
  { res with headers := insertH k v res.headers }

def HttpResponse.setStatus (res : HttpResponse) (st : HttpStatusStruct) : HttpResponse :=
  { res with status := st }

/-- `HttpResponse::text`: the body becomes the UTF-8 bytes of the string. -/
def HttpResponse.text (res : HttpResponse) (t : String) : HttpResponse :=
  { res with body := strBytes t }

/-- `HttpResponse::bytes`. -/
def HttpResponse.bytes (res : HttpResponse) (b : List Nat) : HttpResponse :=
  { res with body := b }

/-! ### Handler chain (handle_tcp_stream loop and the error handler) -/

/-- Result of one request handler: `Ok((req, res))` or
`Err((req, res, cause))`.  The `Box<dyn Error>` cause is modelled by the
message string it carries. -/
inductive HandleResult where
  | ok (req : HttpRequest) (res : HttpResponse)
  | fail (req : HttpRequest) (res : HttpResponse) (cause : String)
deriving DecidableEq

abbrev Handler := HttpRequest → HttpResponse → HandleResult

abbrev ErrorHandler := HttpRequest → HttpResponse → String → HttpRequest × HttpResponse

/-- One iteration of the `for handle in request_handles` loop: on `Ok` keep
the pair, on `Err` feed the triple to the installed error handler. -/
def handleStep (eh : ErrorHandler) (p : HttpRequest × HttpResponse) (h : Handler) :
    HttpRequest × HttpResponse :=
  match h p.1 p.2 with
  | .ok r s => (r, s)
  | .fail r s e => eh r s e

/-- The handler-chain loop of `handle_tcp_stream`. -/
def runHandlers (eh : ErrorHandler) (hs : List Handler) (p : HttpRequest × HttpResponse) :
    HttpRequest × HttpResponse :=
  hs.foldl (handleStep eh) p

/-- The `Debug` rendering of a `Box<dyn Error>` carrying a message: the
message in double quotes, as `format!` with the debug specifier prints it. -/
def debugFmtErr (e : String) : String :=
  "\"" ++ e ++ "\""

/-- The `default_error_handler` installed by `HttpServer::new` (the reason
string carries the source's spelling). -/
def defaultErrorHandler : ErrorHandler := fun req res e =>
  let res1 := res.setStatus { code := 500, reason := "Interal Server Error" }
  let res2 := res1.insertHeader "Content-Type" "text/plain"
  let res3 := res2.text ("Unhandled exception: " ++ debugFmtErr e)
  (req, res3)

/-! ### Response encoding (HttpServer::write_response in src/lib.rs) -/

/-- The header mutations at the start of `write_response`: a default
Content-Type when the key is absent, then Content-Length recomputed from the
actual body length. -/
def finalizeHeaders (res : HttpResponse) : HttpResponse :=
  let res1 :=
    if (getH "Content-Type" res.headers).isNone then
      res.insertHeader "Content-Type" "application/octet-stream"
    else res
  res1.insertHeader "Content-Length" (toString res1.body.length)

/-- The status line pushed first into `response_headlines`. -/
def statusLine (version : String) (res : HttpResponse) : String :=
  version ++ " " ++ toString res.status.code ++ " " ++ res.status.reason

/-- The full serialized response: every headline followed by a newline, a
blank line, then the raw body bytes appended. -/
def writeResponse (version : String) (res : HttpResponse) : List Nat :=
  let r := finalizeHeaders res
  let headlines := statusLine version r :: r.headers.map (fun p => p.1 ++ ": " ++ p.2)
  strBytes (String.join (headlines.map (fun l => l ++ "\n")) ++ "\n") ++ r.body

/-! ### Router and static files (src/utils.rs) -/

/-- The path component of `break_request_uri`: the request URI up to the
first `?`. -/
def HttpRequest.path (req : HttpRequest) : String :=
  (splitOnS "?" req.uri).headD "/"

/-- The route-scanning loop inside the handler that `insert_router` installs:
first route whose path equals the request path wins, otherwise the pair is
returned unchanged. -/
def routerFind (path : String) : List (String × Handler) → Handler
  | [], req, res => .ok req res
  | (p, h) :: rest, req, res => if p = path then h req res else routerFind path rest req res

/-- The handler installed by `Routing::insert_router` for a router holding
`routes` in registration order. -/
def insertRouterHandler (routes : List (String × Handler)) : Handler := fun req res =>
  routerFind (HttpRequest.path req) routes req res

/-- Model of the filesystem seen by the static-file handler:
`some (isFile, data)` means `File::open` and `metadata()` succeed, with
`metadata.is_file()` and the `fs::read(..).unwrap_or(vec![])` contents;
`none` means `File::open` fails. -/
abbrev FileSys := String → Option (Bool × List Nat)

/-- Model of the external `mime_guess` crate:
`MimeGuess::from_path(p).first_or(TEXT_PLAIN)` keyed on the extension. -/
def mimeGuess (p : String) : String :=
  if isPrefixL ".html".data.reverse p.data.reverse then "text/html"
  else if isPrefixL ".css".data.reverse p.data.reverse then "text/css"
  else "text/plain"

/-- The `file_path` built by the static handler once the prefix matched at
index 0: the root directory followed by the path with the prefix stripped. -/
def staticFilePath (root : String) (path : String) : String :=
  root ++ (⟨path.data.drop ("/" ++ root).data.length⟩ : String)

/-- The handler installed by `ServeStatic::serve_static` with root directory
`root`: the ASCII translation of the closure in src/utils.rs.  The guard is
`path.find(&prefix) == Some(0)`, a plain string-prefix test; when open,
metadata and `is_file` succeed the response gets status 200, the guessed
Content-Type and the file bytes, and in every other case the pair is
returned untouched. -/
def serveStaticHandler (fs : FileSys) (root : String) : Handler := fun req res =>
  match findSub ("/" ++ root).data (HttpRequest.path req).data with
  | some 0 =>
    match fs (staticFilePath root (HttpRequest.path req)) with
    | some (true, data) =>
      .ok req (((res.setStatus { code := 200, reason := "OK" }).insertHeader "Content-Type"
        (mimeGuess (staticFilePath root (HttpRequest.path req)))).bytes data)
    | _ => .ok req res
  | _ => .ok req res

/-- Modelled from the spec's words for the escape clause of the static-file
claim: the request path genuinely lies under the prefix when it is the prefix
itself or extends it at a path-segment boundary. -/
def liesUnder (pfx path : String) : Bool :=
  path == pfx || isPrefixL (pfx ++ "/").data path.data

/-- Projection of the response out of a handler result. -/
def HandleResult.response : HandleResult → HttpResponse
  | .ok _ s => s
  | .fail _ s _ => s

/-! ### Concrete fixtures shared by witnesses and counterexamples -/

def reqDemo : HttpRequest :=
  { headers := [], body := [], method := "GET", uri := "/", version := "HTTP/1.1" }

def resDemo : HttpResponse :=
  { headers := [("Content-Type", "text/html"), ("Content-Length", "999")],
    body := [104, 105], status := { code := 200, reason := "OK" } }

/-- A handler that reports a failure with cause "boom". -/
def hBoom : Handler := fun r s => .fail r s "boom"

/-- A handler that marks the response with a header (to observe that the
chain keeps running after a recovered failure). -/
def hMark : Handler := fun r s => .ok r (s.insertHeader "X-Mark" "1")

/-- A handler that sets a body but never touches the status. -/
def hSetBody : Handler := fun r s => .ok r (s.bytes [120])

/-! ### Map and byte lemmas -/

theorem getH_insertH_self (k v : String) (hs : List (String × String)) :
    getH k (insertH k v hs) = some v := by
  induction hs with
  | nil => simp [insertH, getH]
  | cons p rest ih =>
    obtain ⟨a, b⟩ := p
    by_cases hak : a = k
    · subst hak
      simp [insertH, getH]
    · simpa [insertH, getH, hak] using ih

theorem getH_insertH_ne (k k' v : String) (hne : k ≠ k') (hs : List (String × String)) :
    getH k' (insertH k v hs) = getH k' hs := by
  induction hs with
  | nil => simp [insertH, getH, hne]
  | cons p rest ih =>
    obtain ⟨a, b⟩ := p
    by_cases hak : a = k
    · subst hak
      simp [insertH, getH, hne]
    · by_cases hak' : a = k'
      · subst hak'
        simp [insertH, getH, hak]
      · simpa [insertH, getH, hak, hak'] using ih

theorem strBytes_append (a b : String) :
    strBytes (a ++ b) = strBytes a ++ strBytes b := by
  simp [strBytes, String.data_append]

theorem finalizeHeaders_eq (res : HttpResponse) :
    finalizeHeaders res =
      (if (getH "Content-Type" res.headers).isNone then
          res.insertHeader "Content-Type" "application/octet-stream"
        else res).insertHeader "Content-Length" (toString res.body.length) := by
  simp only [finalizeHeaders]
  split <;> rfl

theorem finalizeHeaders_status (res : HttpResponse) :
    (finalizeHeaders res).status = res.status := by
  rw [finalizeHeaders_eq]
  split <;> rfl

theorem finalizeHeaders_body (res : HttpResponse) :
    (finalizeHeaders res).body = res.body := by
  rw [finalizeHeaders_eq]
  split <;> rfl

/-! ### Handler-chain lemmas -/

theorem runHandlers_nil (eh : ErrorHandler) (p : HttpRequest × HttpResponse) :
    runHandlers eh [] p = p := rfl

theorem runHandlers_cons (eh : ErrorHandler) (h : Handler) (hs : List Handler)
    (p : HttpRequest × HttpResponse) :
    runHandlers eh (h :: hs) p = runHandlers eh hs (handleStep eh p h) := rfl

theorem runHandlers_append (eh : ErrorHandler) (xs ys : List Handler)
    (p : HttpRequest × HttpResponse) :
    runHandlers eh (xs ++ ys) p = runHandlers eh ys (runHandlers eh xs p) :=
  List.foldl_append _ _ _ _

theorem runHandlers_status_preserved (eh : ErrorHandler) (hs : List Handler)
    (p : HttpRequest × HttpResponse)
    (hpres : ∀ h ∈ hs, ∀ q : HttpRequest × HttpResponse,
      (handleStep eh q h).2.status = q.2.status) :
    (runHandlers eh hs p).2.status = p.2.status := by
  induction hs generalizing p with
  | nil => rfl
  | cons h rest ih =>
    rw [runHandlers_cons]
    have h1 := ih (handleStep eh p h) (fun g hg q => hpres g (List.mem_cons_of_mem h hg) q)
    rw [h1]
    exact hpres h (List.mem_cons_self h rest) p

/-! ### Claim theorems -/

/-- Claim C1: when a response is serialized, `write_response` first sets the
`Content-Length` header to exactly the decimal byte length of the response
body (also for an empty body), overwriting any handler-supplied value, and
inserts `Content-Type: application/octet-stream` exactly when no
`Content-Type` header is present, preserving a handler-set `Content-Type`. -/
theorem C1_encoder_content_headers (res : HttpResponse) :
    getH "Content-Length" (finalizeHeaders res).headers = some (toString res.body.length)
    ∧ (getH "Content-Type" res.headers = none →
        getH "Content-Type" (finalizeHeaders res).headers = some "application/octet-stream")
    ∧ (∀ v, getH "Content-Type" res.headers = some v →
        getH "Content-Type" (finalizeHeaders res).headers = some v) := by
  have hne : ("Content-Length" : String) ≠ "Content-Type" := by decide
  rw [finalizeHeaders_eq]
  by_cases hct : (getH "Content-Type" res.headers).isNone
  · refine ⟨?_, ?_, ?_⟩
    · simp [hct, HttpResponse.insertHeader, getH_insertH_self]
    · intro _
      simp [hct, HttpResponse.insertHeader,
        getH_insertH_ne "Content-Length" "Content-Type" _ hne, getH_insertH_self]
    · intro v hv
      rw [hv] at hct
      simp at hct
  · refine ⟨?_, ?_, ?_⟩
    · simp [hct, HttpResponse.insertHeader, getH_insertH_self]
    · intro hnone
      rw [hnone] at hct
      simp at hct
    · intro v hv
      simp [hct, HttpResponse.insertHeader,
        getH_insertH_ne "Content-Length" "Content-Type" _ hne, hv]

/-- Witness for C1 at a concrete response: the body has two bytes and the
handler-set Content-Type survives while the stale Content-Length is
overwritten. -/
theorem C1_encoder_content_headers_witness :
    getH "Content-Length" (finalizeHeaders resDemo).headers = some "2"
    ∧ getH "Content-Type" (finalizeHeaders resDemo).headers = some "text/html" := by
  have h := C1_encoder_content_headers resDemo
  exact ⟨h.1, h.2.2 "text/html" rfl⟩

/-- Claim C2: when the handler at any position of the chain returns a failure
triple, the installed error handler is invoked with exactly that triple and
the pair it returns is fed to the rest of the chain (the remaining handlers
still run); the default error handler sets status code 500 and a body that
contains the cause's text. -/
theorem C2_failure_recovered_chain_continues (eh : ErrorHandler) (pre post : List Handler)
    (h : Handler) (p : HttpRequest × HttpResponse) (r : HttpRequest) (s : HttpResponse)
    (e : String)
    (hfail : h (runHandlers eh pre p).1 (runHandlers eh pre p).2 = .fail r s e) :
    runHandlers eh (pre ++ h :: post) p = runHandlers eh post (eh r s e)
    ∧ (defaultErrorHandler r s e).2.status.code = 500
    ∧ ∃ a b, (defaultErrorHandler r s e).2.body = a ++ strBytes e ++ b := by
  refine ⟨?_, rfl, ?_⟩
  · rw [runHandlers_append, runHandlers_cons]
    congr 1
    simp [handleStep, hfail]
  · refine ⟨strBytes "Unhandled exception: " ++ strBytes "\"", strBytes "\"", ?_⟩
    show strBytes ("Unhandled exception: " ++ debugFmtErr e) = _
    simp [debugFmtErr, strBytes_append, List.append_assoc]

/-- Witness for C2: a chain whose first handler fails with cause "boom" is
recovered by the default error handler (status code 500, body containing
"boom") and the rest of the chain still runs on the recovered pair. -/
theorem C2_failure_recovered_chain_continues_witness :
    runHandlers defaultErrorHandler ([] ++ hBoom :: [hMark]) (reqDemo, HttpResponse.new)
      = runHandlers defaultErrorHandler [hMark]
          (defaultErrorHandler reqDemo HttpResponse.new "boom")
    ∧ (defaultErrorHandler reqDemo HttpResponse.new "boom").2.status.code = 500
    ∧ ∃ a b, (defaultErrorHandler reqDemo HttpResponse.new "boom").2.body
        = a ++ strBytes "boom" ++ b :=
  C2_failure_recovered_chain_continues defaultErrorHandler [] [hMark] hBoom
    (reqDemo, HttpResponse.new) reqDemo HttpResponse.new "boom" rfl

/-- Claim C3 as stated is false on the code: a chain whose only handler sets
a body but never touches the status yields a serialized response with status
404 and a NON-empty body, while the claim demands an empty body whenever no
handler sets the status. -/
theorem C3_counterexample :
    ¬ (∀ (hs : List Handler) (req : HttpRequest),
        (∀ h ∈ hs, ∀ q : HttpRequest × HttpResponse,
          (handleStep defaultErrorHandler q h).2.status = q.2.status) →
        (runHandlers defaultErrorHandler hs (req, HttpResponse.new)).2.status
            = { code := 404, reason := "Not Found" }
          ∧ (runHandlers defaultErrorHandler hs (req, HttpResponse.new)).2.body = []) := by
  intro hcl
  have hpres : ∀ h ∈ [hSetBody], ∀ q : HttpRequest × HttpResponse,
      (handleStep defaultErrorHandler q h).2.status = q.2.status := by
    intro h hm q
    rw [List.mem_singleton] at hm
    subst hm
    rfl
  have h2 := (hcl [hSetBody] reqDemo hpres).2
  exact absurd h2 (by decide)

/-- Claim C3 amended: the initial response handed to the first handler is
exactly status 404/"Not Found" with empty headers and empty body; when no
handler in the chain changes the response status the serialized status line
is "version 404 Not Found"; and when the chain is empty the response (hence
also its body) is exactly the default — a status-preserving handler may still
set a non-empty body, so the empty-body part of the original claim holds only
for the empty chain. -/
theorem C3_default_response_amended (eh : ErrorHandler) (hs : List Handler)
    (req : HttpRequest) (v : String)
    (hpres : ∀ h ∈ hs, ∀ q : HttpRequest × HttpResponse,
      (handleStep eh q h).2.status = q.2.status) :
    HttpResponse.new
        = { headers := [], body := [], status := { code := 404, reason := "Not Found" } }
    ∧ (runHandlers eh hs (req, HttpResponse.new)).2.status
        = { code := 404, reason := "Not Found" }
    ∧ statusLine v (finalizeHeaders (runHandlers eh hs (req, HttpResponse.new)).2)
        = v ++ " " ++ "404" ++ " " ++ "Not Found"
    ∧ (hs = [] → runHandlers eh hs (req, HttpResponse.new) = (req, HttpResponse.new)) := by
  have hst := runHandlers_status_preserved eh hs (req, HttpResponse.new) hpres
  refine ⟨rfl, ?_, ?_, ?_⟩
  · rw [hst]; rfl
  · have hq : (finalizeHeaders (runHandlers eh hs (req, HttpResponse.new)).2).status
        = HttpResponse.new.status := by
      rw [finalizeHeaders_status, hst]
    simp only [statusLine, hq]
    rfl
  · intro hnil
    subst hnil
    rfl

/-- Witness for C3 (amended) at the empty chain: everything evaluates at the
default response. -/
theorem C3_default_response_amended_witness :
    HttpResponse.new
        = { headers := [], body := [], status := { code := 404, reason := "Not Found" } }
    ∧ (runHandlers defaultErrorHandler [] (reqDemo, HttpResponse.new)).2.status
        = { code := 404, reason := "Not Found" }
    ∧ statusLine "HTTP/1.1"
          (finalizeHeaders (runHandlers defaultErrorHandler [] (reqDemo, HttpResponse.new)).2)
        = "HTTP/1.1" ++ " " ++ "404" ++ " " ++ "Not Found"
    ∧ ([] = ([] : List Handler) →
        runHandlers defaultErrorHandler [] (reqDemo, HttpResponse.new)
          = (reqDemo, HttpResponse.new)) :=
  C3_default_response_amended defaultErrorHandler [] reqDemo "HTTP/1.1"
    (fun h hm => absurd hm (List.not_mem_nil h))

theorem findSome?_append_none {α β : Type} (f : α → Option β) (pre rest : List α)
    (hpre : ∀ l ∈ pre, f l = none) :
    (pre ++ rest).findSome? f = rest.findSome? f := by
  induction pre with
  | nil => rfl
  | cons q qs ih =>
    have hq := hpre q (List.mem_cons_self q qs)
    simpa [List.findSome?_cons, hq] using
      ih (fun l h => hpre l (List.mem_cons_of_mem q h))

/-- Claim C4 as stated is false on the code: `find_map` skips a
Content-Length headline whose value fails to parse and keeps scanning, so
with an unparseable first occurrence and a parseable later duplicate the body
length is 7, while the claim's procedure — locate the matching headline,
parse its value, default to 0 when it does not parse — yields 0
(`contentLengthClaimed` renders that procedure). -/
theorem C4_counterexample :
    contentLength ["POST / HTTP/1.1", "Content-Length: zzz", "Content-Length: 7"] = 7
    ∧ contentLengthClaimed ["POST / HTTP/1.1", "Content-Length: zzz", "Content-Length: 7"] = 0
    ∧ (7 : Nat) ≠ 0 :=
  ⟨rfl, rfl, by decide⟩

/-- Claim C4 amended: the decoder's body length is the value of the first
headline whose name matches Content-Length case-insensitively AND whose
trimmed value parses as a non-negative integer (a matching headline with an
unparseable value is skipped, so a later matching headline may still supply
the length); it is 0 when no headline matches-and-parses; when the length is
N it reads exactly N body bytes, leaving the bytes beyond N unread in the
stream, a stream with fewer than N bytes is an I/O failure (`none`, the
`read_exact` unwrap panic), and length 0 yields an empty body. -/
theorem C4_content_length_amended (pre post : List String) (line : String) (n : Nat)
    (hl : List String) (stream : List Nat)
    (hpre : ∀ l ∈ pre, lineContentLength l = none)
    (hline : lineContentLength line = some n) :
    contentLength (pre ++ line :: post) = n
    ∧ ((∀ l ∈ hl, lineContentLength l = none) → contentLength hl = 0)
    ∧ (n ≤ stream.length → readBody n stream = some (stream.take n, stream.drop n))
    ∧ (stream.length < n → readBody n stream = none)
    ∧ readBody 0 stream = some ([], stream) := by
  refine ⟨?_, ?_, ?_, ?_, ?_⟩
  · unfold contentLength
    rw [findSome?_append_none lineContentLength pre (line :: post) hpre]
    simp [List.findSome?_cons, hline]
  · intro hall
    unfold contentLength
    rw [List.findSome?_eq_none_iff.mpr hall]
    rfl
  · intro hle
    simp [readBody, hle]
  · intro hlt
    simp only [readBody]
    rw [if_neg (Nat.not_le.mpr hlt)]
  · simp [readBody]

/-- Witness for C4 (amended): the request line does not match, the line
"Content-Length: 5" supplies length 5, and exactly 5 of the 7 stream bytes
are consumed, the remaining 2 left unread. -/
theorem C4_content_length_amended_witness :
    contentLength (["POST / HTTP/1.1"] ++ "Content-Length: 5" :: ["X-Foo: y"]) = 5
    ∧ ((∀ l ∈ ["POST / HTTP/1.1"], lineContentLength l = none) →
        contentLength ["POST / HTTP/1.1"] = 0)
    ∧ (5 ≤ [104, 101, 108, 108, 111, 33, 33].length →
        readBody 5 [104, 101, 108, 108, 111, 33, 33]
          = some ([104, 101, 108, 108, 111, 33, 33].take 5,
              [104, 101, 108, 108, 111, 33, 33].drop 5))
    ∧ ([104, 101, 108, 108, 111, 33, 33].length < 5 →
        readBody 5 [104, 101, 108, 108, 111, 33, 33] = none)
    ∧ readBody 0 [104, 101, 108, 108, 111, 33, 33]
        = some ([], [104, 101, 108, 108, 111, 33, 33]) :=
  C4_content_length_amended ["POST / HTTP/1.1"] ["X-Foo: y"] "Content-Length: 5" 5
    ["POST / HTTP/1.1"] [104, 101, 108, 108, 111, 33, 33]
    (fun l hm => by rw [List.mem_singleton] at hm; subst hm; rfl) rfl

/-- Claim C5 as stated is false on the code: `HttpRequest::new` collects all
pieces of `line.split(": ")` and stores `elements[1]`, only the second piece,
so the headline "X-Foo: bar: baz" yields the map entry X-Foo -> "bar" and
not the claimed entire remainder "bar: baz". -/
theorem C5_counterexample :
    (HttpRequest.new ["GET / HTTP/1.1", "X-Foo: bar: baz"] []).map
        (fun r => getH "X-Foo" r.headers) = some (some "bar")
    ∧ ("bar" : String) ≠ "bar: baz" :=
  ⟨rfl, by decide⟩

/-- Claim C5 amended: every headline after the request line is split on the
occurrences of ": "; when at least two pieces result, the header name is the
first piece and the header value is the SECOND piece only (the text between
the first and second ": ", not the entire remainder); the pair is stored
last-write-wins, and a line without ": " is silently skipped. -/
theorem C5_header_split_amended (acc : List (String × String)) (line1 line2 a b x : String)
    (rest : List String) (k v : String) (hs : List (String × String))
    (hsplit : splitOnS ": " line1 = a :: b :: rest)
    (hnosep : splitOnS ": " line2 = [x]) :
    headerStep acc line1 = insertH a b acc
    ∧ headerStep acc line2 = acc
    ∧ getH k (insertH k v hs) = some v := by
  refine ⟨?_, ?_, getH_insertH_self k v hs⟩
  · simp [headerStep, hsplit]
  · simp [headerStep, hnosep]

/-- Witness for C5 (amended): the line "X-Foo: bar: baz" stores ("X-Foo",
"bar"), the line "garbage" is skipped, and inserting a duplicate key
overwrites the old value. -/
theorem C5_header_split_amended_witness :
    headerStep [] "X-Foo: bar: baz" = insertH "X-Foo" "bar" []
    ∧ headerStep [] "garbage" = []
    ∧ getH "A" (insertH "A" "2" [("A", "1")]) = some "2" :=
  C5_header_split_amended [] "X-Foo: bar: baz" "garbage" "X-Foo" "bar" "garbage" ["baz"]
    "A" "2" [("A", "1")] rfl rfl

/-- Claim C6: splitting the request line on single spaces yields the method,
URI and version as the first three tokens, and a request line with fewer than
three space-separated tokens is a malformed-request failure (the
`metadata[2]` panic, modelled by `none`) rather than a Request. -/
theorem C6_request_line (firstLine : String) (rest : List String) (body : List Nat)
    (m u v : String) (tks : List String)
    (hsplit : splitOnS " " firstLine = m :: u :: v :: tks) :
    HttpRequest.new (firstLine :: rest) body
      = some { headers := parseHeaders rest, body := body, method := m, uri := u,
               version := v }
    ∧ (∀ (l2 : String) (r2 : List String) (b2 : List Nat),
        (splitOnS " " l2).length < 3 → HttpRequest.new (l2 :: r2) b2 = none) := by
  constructor
  · simp [HttpRequest.new, hsplit]
  · intro l2 r2 b2 hlen
    cases hm : splitOnS " " l2 with
    | nil => simp [HttpRequest.new, hm]
    | cons x t1 =>
      cases t1 with
      | nil => simp [HttpRequest.new, hm]
      | cons y t2 =>
        cases t2 with
        | nil => simp [HttpRequest.new, hm]
        | cons z t3 =>
          rw [hm] at hlen
          simp [List.length_cons] at hlen
          omega

/-- Witness for C6: "GET /a/b?x=1 HTTP/1.1" parses into method "GET", uri
"/a/b?x=1", version "HTTP/1.1", and the two-token request line "GET /"
produces no Request. -/
theorem C6_request_line_witness :
    HttpRequest.new ["GET /a/b?x=1 HTTP/1.1"] []
      = some { headers := parseHeaders [], body := [], method := "GET", uri := "/a/b?x=1",
               version := "HTTP/1.1" }
    ∧ HttpRequest.new ["GET /"] [] = none := by
  have h := C6_request_line "GET /a/b?x=1 HTTP/1.1" [] [] "GET" "/a/b?x=1" "HTTP/1.1" [] rfl
  exact ⟨h.1, h.2 "GET /" [] [] (by decide)⟩

theorem routerFind_skip (path : String) (pre : List (String × Handler)) (p : String)
    (h : Handler) (post : List (String × Handler)) (req : HttpRequest) (res : HttpResponse)
    (hpre : ∀ q ∈ pre, q.1 ≠ path) (hp : p = path) :
    routerFind path (pre ++ (p, h) :: post) req res = h req res := by
  induction pre with
  | nil => simp [routerFind, hp]
  | cons q qs ih =>
    obtain ⟨qp, qh⟩ := q
    have hq : qp ≠ path := hpre (qp, qh) (List.mem_cons_self _ _)
    simpa [routerFind, hq] using ih (fun r hr => hpre r (List.mem_cons_of_mem _ hr))

theorem routerFind_no_match (path : String) (routes : List (String × Handler))
    (req : HttpRequest) (res : HttpResponse)
    (hnone : ∀ q ∈ routes, q.1 ≠ path) :
    routerFind path routes req res = .ok req res := by
  induction routes with
  | nil => rfl
  | cons q qs ih =>
    obtain ⟨qp, qh⟩ := q
    have hq : qp ≠ path := hnone (qp, qh) (List.mem_cons_self _ _)
    simpa [routerFind, hq] using ih (fun r hr => hnone r (List.mem_cons_of_mem _ hr))

/-- Claim C8: the router handler scans its routes in registration order and
dispatches to the handler of the first route whose registered path equals the
request's path exactly — the result does not depend on the routes after the
match, so no later route runs; and when no route's path equals the request
path the (request, response) pair is returned unchanged. -/
theorem C8_router_exact_first_match (pre post routes : List (String × Handler)) (p : String)
    (h : Handler) (req : HttpRequest) (res : HttpResponse)
    (hpre : ∀ q ∈ pre, q.1 ≠ HttpRequest.path req)
    (hmatch : p = HttpRequest.path req)
    (hnone : ∀ q ∈ routes, q.1 ≠ HttpRequest.path req) :
    insertRouterHandler (pre ++ (p, h) :: post) req res = h req res
    ∧ insertRouterHandler routes req res = HandleResult.ok req res :=
  ⟨routerFind_skip (HttpRequest.path req) pre p h post req res hpre hmatch,
   routerFind_no_match (HttpRequest.path req) routes req res hnone⟩

/-- A route handler answering 200 OK, for the router witness. -/
def hA : Handler := fun r s => .ok r (s.setStatus { code := 200, reason := "OK" })

/-- A route handler answering 201 Created, for the router witness. -/
def hB : Handler := fun r s => .ok r (s.setStatus { code := 201, reason := "Created" })

def reqA : HttpRequest :=
  { headers := [], body := [], method := "GET", uri := "/a", version := "HTTP/1.1" }

/-- Witness for C8: routes [("/a", hA), ("/b", hB)] dispatch a request for
"/a" to hA, and a route table without "/a" leaves the pair unchanged. -/
theorem C8_router_exact_first_match_witness :
    insertRouterHandler ([] ++ ("/a", hA) :: [("/b", hB)]) reqA HttpResponse.new
      = hA reqA HttpResponse.new
    ∧ insertRouterHandler [("/b", hB)] reqA HttpResponse.new
      = HandleResult.ok reqA HttpResponse.new :=
  C8_router_exact_first_match [] [("/b", hB)] [("/b", hB)] "/a" hA reqA HttpResponse.new
    (fun q hq => absurd hq (List.not_mem_nil q))
    rfl
    (fun q hq => by rw [List.mem_singleton] at hq; subst hq; decide)

/-- A one-file filesystem holding a regular file named "publicx" — in a real
directory tree this is a sibling of the "public" root, yet the handler's
string-prefix guard accepts the request path "/publicx". -/
def fsDemo : FileSys := fun p => if p = "publicx" then some (true, [104, 105]) else none

def reqEscape : HttpRequest :=
  { headers := [], body := [], method := "GET", uri := "/publicx", version := "HTTP/1.1" }

/-- Claim C9 as stated is false on the code: the request path "/publicx" does
not genuinely lie under the prefix "/public" (`liesUnder` renders the claim's
escape clause), the file the handler computes for it exists, and the handler
rewrites the response to 200 instead of leaving it untouched — the guard is
only a string-prefix test. -/
theorem C9_counterexample :
    liesUnder "/public" (HttpRequest.path reqEscape) = false
    ∧ fsDemo (staticFilePath "public" (HttpRequest.path reqEscape)) = some (true, [104, 105])
    ∧ (serveStaticHandler fsDemo "public" reqEscape HttpResponse.new).response.status
        = { code := 200, reason := "OK" }
    ∧ HttpResponse.new.status = { code := 404, reason := "Not Found" } :=
  ⟨rfl, rfl, rfl, rfl⟩

/-- Claim C9 amended: the static-file handler leaves the response completely
untouched when the prefix "/" ++ root does not occur at position 0 of the
request path (the guard is a plain string-prefix test — it does not prevent
paths that merely start with the prefix string from escaping the root), and
likewise when opening the computed file path fails or the metadata is not a
regular file; in those cases the pair falls through unchanged to the default
404. -/
theorem C9_static_untouched_amended :
    (∀ (fs : FileSys) (root : String) (req : HttpRequest) (res : HttpResponse),
      findSub ("/" ++ root).data (HttpRequest.path req).data ≠ some 0 →
      serveStaticHandler fs root req res = HandleResult.ok req res)
    ∧ (∀ (fs : FileSys) (root : String) (req : HttpRequest) (res : HttpResponse),
      fs (staticFilePath root (HttpRequest.path req)) = none →
      serveStaticHandler fs root req res = HandleResult.ok req res)
    ∧ (∀ (fs : FileSys) (root : String) (req : HttpRequest) (res : HttpResponse)
        (data : List Nat),
      fs (staticFilePath root (HttpRequest.path req)) = some (false, data) →
      serveStaticHandler fs root req res = HandleResult.ok req res) := by
  refine ⟨?_, ?_, ?_⟩
  · intro fs root req res hno
    unfold serveStaticHandler
    split
    · rename_i heq
      exact absurd heq hno
    · rfl
  · intro fs root req res hmiss
    unfold serveStaticHandler
    split
    · split
      · rename_i heq2
        rw [hmiss] at heq2
        exact absurd heq2 (by simp)
      · rfl
    · rfl
  · intro fs root req res data h3
    unfold serveStaticHandler
    split
    · split
      · rename_i heq2
        rw [h3] at heq2
        exact absurd heq2 (by simp)
      · rfl
    · rfl

/-- The empty filesystem: every open fails. -/
def fsNone : FileSys := fun _ => none

def reqMissing : HttpRequest :=
  { headers := [], body := [], method := "GET", uri := "/public/missing.txt",
    version := "HTTP/1.1" }

def reqOther : HttpRequest :=
  { headers := [], body := [], method := "GET", uri := "/other", version := "HTTP/1.1" }

/-- A filesystem whose only entry is a directory (not a regular file). -/
def fsDir : FileSys := fun p => if p = "public/sub" then some (false, []) else none

def reqSub : HttpRequest :=
  { headers := [], body := [], method := "GET", uri := "/public/sub", version := "HTTP/1.1" }

/-- Witness for C9 (amended): a path outside the prefix, a missing file, and
a directory all leave the response untouched. -/
theorem C9_static_untouched_amended_witness :
    serveStaticHandler fsNone "public" reqOther HttpResponse.new
      = HandleResult.ok reqOther HttpResponse.new
    ∧ serveStaticHandler fsNone "public" reqMissing HttpResponse.new
      = HandleResult.ok reqMissing HttpResponse.new
    ∧ serveStaticHandler fsDir "public" reqSub HttpResponse.new
      = HandleResult.ok reqSub HttpResponse.new :=
  ⟨C9_static_untouched_amended.1 fsNone "public" reqOther HttpResponse.new (by decide),
   C9_static_untouched_amended.2.1 fsNone "public" reqMissing HttpResponse.new rfl,
   C9_static_untouched_amended.2.2 fsDir "public" reqSub HttpResponse.new [] rfl⟩

/-- Claim C10: request construction is partial on its public input —
`HttpRequest::new` removes the first headline unconditionally, so an empty
headline list produces no Request and no error value (the `remove(0)` panic,
modelled by `none`), and any input on which decoding does produce a Request
necessarily had at least one headline. -/
theorem C10_new_partial_on_empty :
    (∀ body : List Nat, HttpRequest.new [] body = none)
    ∧ (∀ (hls : List String) (body : List Nat) (r : HttpRequest),
        HttpRequest.new hls body = some r → hls ≠ []) := by
  constructor
  · intro body
    rfl
  · intro hls body r hsome hnil
    subst hnil
    simp [HttpRequest.new] at hsome

/-- Witness for C10: the empty headline list yields no Request, while a
one-headline input parses (so the necessity direction applies to it). -/
theorem C10_new_partial_on_empty_witness :
    HttpRequest.new [] [] = none
    ∧ (["GET / HTTP/1.1"] : List String) ≠ [] := by
  have h := C10_new_partial_on_empty
  refine ⟨h.1 [], ?_⟩
  exact h.2 ["GET / HTTP/1.1"] []
    { headers := [], body := [], method := "GET", uri := "/", version := "HTTP/1.1" } rfl

end SpeedRs
